import Mathlib

/-!
Shallow embedding of `scripts/build_auto.py`.

The script locates an LLVM installation root, generates `llvm_libs.rsp`
(a linker response file) and `rebuild_auto.bat` (a batch script derived
from the template `rebuild_all.bat`), and optionally runs the build.

The filesystem, the environment and the one external process probe
(`where clang`) are modelled by the record `FS` below.  Paths are plain
strings (the script runs on Windows, joining path segments with a
backslash).  File contents are strings as seen through Python text mode:
`Path.read_text` performs universal-newline translation, so contents
contain only `\n` line endings, and `Path.write_text` is the inverse
translation, so equality of the modelled contents is equality of the
on-disk bytes.
-/

/-- Windows path separators recognised by `pathlib`. -/
def isSep (c : Char) : Bool := c = '\\' || c = '/'

/-- ASCII whitespace, modelling Python `str.strip()` with no argument. -/
def isSpace (c : Char) : Bool :=
  c = ' ' || c = '\t' || c = '\n' || c = '\r' || c = '\x0b' || c = '\x0c'

/-- `str(PureWindowsPath(a) / b)`: join two path segments with a backslash. -/
def pjoin (a b : String) : String := a ++ "\\" ++ b

/-- The f-string `f'"..."'` wrapping used for response-file lines. -/
def quoteStr (s : String) : String := "\"" ++ s ++ "\""

/-- Python `s.startswith(t)`. -/
def strStartsWith (s t : String) : Bool := t.data.isPrefixOf s.data

/-- Python `s.endswith(t)`. -/
def strEndsWith (s t : String) : Bool := t.data.reverse.isPrefixOf s.data.reverse

/-- Python `s.strip(chars)`: drop characters satisfying `p` from both ends. -/
def pyStrip (p : Char → Bool) (s : String) : String :=
  String.mk (((s.data.dropWhile p).reverse.dropWhile p).reverse)

/-- `line.strip().strip('"')` as done when reading an existing `llvm_libs.rsp`. -/
def stripLine (line : String) : String :=
  pyStrip (fun c => c = '"') (pyStrip isSpace line)

/-- `PureWindowsPath(s).name`: the final component (trailing separators dropped). -/
def pathName (s : String) : String :=
  String.mk (((s.data.reverse.dropWhile isSep).takeWhile (fun c => isSep c = false)).reverse)

/-- `PureWindowsPath(s).suffix`: the dotted extension of the final component. -/
def pathSuffix (s : String) : String :=
  let nm := (pathName s).data
  let ext := nm.reverse.takeWhile (fun c => c ≠ '.')
  if ext.length = nm.length then ""
  else if ext.length + 1 = nm.length then ""
  else String.mk ('.' :: ext.reverse)

/-- `PureWindowsPath(s).parent` (drive roots simplified: no trailing backslash). -/
def parentDir (s : String) : String :=
  let rest := (s.data.reverse.dropWhile (fun c => isSep c = false)).dropWhile isSep
  if rest = [] then "." else String.mk rest.reverse

/-- Python `s.lower()` (ASCII). -/
def lowerStr (s : String) : String := String.mk (s.data.map Char.toLower)

/-- Split a character stream into chunks at every newline; `acc` holds the
current chunk reversed.  `splitAux cs []` is `"".join-free` splitting that
keeps a trailing empty chunk, i.e. `str.split("\n")`. -/
def splitAux : List Char → List Char → List String
  | [], acc => [String.mk acc.reverse]
  | c :: cs, acc =>
    if c = '\n' then String.mk acc.reverse :: splitAux cs []
    else splitAux cs (c :: acc)

/-- `s.split("\n")`: every newline is a separator, a trailing one yields a
trailing empty element.  This is how `re.MULTILINE` anchors divide a string
into lines (the contents seen here contain no `\r`, see module docstring). -/
def splitNL (s : String) : List String := splitAux s.data []

/-- Python `s.splitlines()`: like `splitNL` but `""` gives `[]` and a trailing
newline does not produce a trailing empty element. -/
def pySplitlines (s : String) : List String :=
  if s = "" then []
  else if (splitNL s).getLast? = some "" then (splitNL s).dropLast
  else splitNL s

/-- Python `"\n".join(lines)`. -/
def joinNL : List String → String
  | [] => ""
  | [l] => l
  | l :: ls => l ++ "\n" ++ joinNL ls

/-- The ambient machine state: filesystem probes, environment variables and
the result of the `where clang` probe, plus the exit code the generated
build script would return when run. -/
structure FS where
  /-- `Path(p).exists()` -/
  pexists : String → Bool
  /-- `Path(p).is_dir()` -/
  isDir : String → Bool
  /-- `Path(p).iterdir()`: immediate children, as full paths, in OS order. -/
  iterdir : String → List String
  /-- The entry names of a directory, used to model `Path(p).glob`. -/
  listNames : String → List String
  /-- `Path(p).read_text(encoding="utf-8")`, `none` when the file is absent. -/
  readFile : String → Option String
  /-- `str(Path(s).resolve())`. -/
  resolve : String → String
  /-- Environment: `os.environ.get(k)`. -/
  envGet : String → Option String
  /-- First line of a successful `where clang` (stripped); `none` models a
  missing tool, a non-zero exit, empty output, a timeout or any exception. -/
  whereClangFirst : Option String
  /-- Exit code of the child process started by `run_build`. -/
  buildExit : Int

/-- `Path(p).write_text(content)`: afterwards the file exists with that
content; nothing else changes. -/
def FS.writeFile (fs : FS) (p content : String) : FS :=
  { fs with
    readFile := fun q => if q = p then some content else fs.readFile q,
    pexists := fun q => if q = p then true else fs.pexists q }

/-- `SCRIPT_DIR = Path(__file__).resolve().parent`, a fixed directory. -/
def SCRIPT_DIR : String := "C:\\moonlang\\scripts"

/-- `LLVM_LIBS_RSP = SCRIPT_DIR / "llvm_libs.rsp"` -/
def LLVM_LIBS_RSP : String := pjoin SCRIPT_DIR "llvm_libs.rsp"

/-- `REBUILD_ALL_BAT = SCRIPT_DIR / "rebuild_all.bat"` -/
def REBUILD_ALL_BAT : String := pjoin SCRIPT_DIR "rebuild_all.bat"

/-- `REBUILD_AUTO_BAT = SCRIPT_DIR / "rebuild_auto.bat"` -/
def REBUILD_AUTO_BAT : String := pjoin SCRIPT_DIR "rebuild_auto.bat"

/-- `(p / "lib" / "LLVMCore.lib").exists()`: the library marker. -/
def hasMarkerLib (fs : FS) (p : String) : Bool :=
  fs.pexists (pjoin (pjoin p "lib") "LLVMCore.lib")

/-- `(p / "include" / "llvm").exists()`: the include marker. -/
def hasMarkerInc (fs : FS) (p : String) : Bool :=
  fs.pexists (pjoin (pjoin p "include") "llvm")

/-- Strategy 1 of `detect_llvm_path`: a (truthy) explicit override. -/
def detectOverride (fs : FS) (o : String) : Option String :=
  let p := fs.resolve o
  if hasMarkerLib fs p then some p
  else if hasMarkerInc fs p then some p
  else none

/-- `v = os.environ.get(k)` followed by the truthiness test `if v:`. -/
def envTruthy (fs : FS) (k : String) : Option String :=
  match fs.envGet k with
  | none => none
  | some v => if v = "" then none else some v

/-- The environment variables consulted, in order (line 31 of the script). -/
def ENV_VARS : List String := ["LLVM_PATH", "LLVM_DIR", "LLVM_HOME"]

/-- Strategy 2 of `detect_llvm_path`: the environment loop.  A variable that
is set but whose resolved path passes neither marker does NOT return; the
loop continues with the next variable. -/
def detectEnvList (fs : FS) : List String → Option String
  | [] => none
  | k :: ks =>
    match envTruthy fs k with
    | none => detectEnvList fs ks
    | some v =>
      let p := fs.resolve v
      if hasMarkerLib fs p || hasMarkerInc fs p then some p
      else detectEnvList fs ks

/-- The fixed list of well-known install directories (lines 39-43). -/
def CANDIDATES : List String :=
  ["C:\\LLVM-dev", "C:\\Program Files\\LLVM", "C:\\llvm"]

/-- The inner loop of strategy 3: first immediate subdirectory carrying the
library marker.  Note only `lib/LLVMCore.lib` is tested here. -/
def firstSubWithMarker (fs : FS) : List String → Option String
  | [] => none
  | sub :: rest =>
    if fs.isDir sub && hasMarkerLib fs sub then some sub
    else firstSubWithMarker fs rest

/-- Strategy 3 of `detect_llvm_path`: well-known directories.  Non-existing
bases are skipped (`continue`), but the loop `break`s after the first
existing base whether or not it produced a result. -/
def detectCommon (fs : FS) : List String → Option String
  | [] => none
  | base :: rest =>
    if fs.pexists base then
      if fs.isDir base then
        if hasMarkerLib fs base then some base
        else firstSubWithMarker fs (fs.iterdir base)
      else none
    else detectCommon fs rest

/-- Strategy 4 of `detect_llvm_path`: derive a root from `where clang`
(two directory levels above the executable), accepted only on the library
marker. -/
def detectClang (fs : FS) : Option String :=
  match fs.whereClangFirst with
  | none => none
  | some first =>
    if lowerStr (pathSuffix first) = ".exe" || lowerStr (pathSuffix first) = "" then
      let root := parentDir (parentDir first)
      if hasMarkerLib fs root then some root else none
    else none

/-- Strategies 2-4 in order, as run when no truthy override is supplied. -/
def detectRest (fs : FS) : Option String :=
  match detectEnvList fs ENV_VARS with
  | some p => some p
  | none =>
    match detectCommon fs CANDIDATES with
    | some p => some p
    | none => detectClang fs

/-- `detect_llvm_path(override)` (lines 19-77).  `if override:` is Python
truthiness: `None` and `""` both fall through to the other strategies. -/
def detect_llvm_path (fs : FS) (override : Option String) : Option String :=
  match override with
  | none => detectRest fs
  | some o => if o = "" then detectRest fs else detectOverride fs o

/-- Python exceptions relevant to the script. -/
inductive PyError where
  | fileNotFound (msg : String)
  | valueError (msg : String)
deriving DecidableEq

/-- Parse one line of an existing `llvm_libs.rsp` (lines 89-95): strip
whitespace then quotes; skip empties and `#` comments; keep the basename
when it ends in `.lib`, silently skip it otherwise. -/
def parseRspLine (line : String) : Option String :=
  let l := stripLine line
  if l = "" then none
  else if strStartsWith l "#" then none
  else
    let name := pathName l
    if strEndsWith name ".lib" then some name else none

/-- Lexicographic comparison of character streams by code point, the
order Python `sorted` applies to strings. -/
def leChars : List Char → List Char → Bool
  | [], _ => true
  | _ :: _, [] => false
  | a :: as, b :: bs =>
    if a.val < b.val then true
    else if b.val < a.val then false
    else leChars as bs

/-- `x <= y` on strings, by code points. -/
def strLeB (x y : String) : Bool := leChars x.data y.data

/-- Insert into a sorted list of strings, for the model of `sorted`. -/
def insertSorted (x : String) : List String → List String
  | [] => [x]
  | y :: ys => if strLeB x y then x :: y :: ys else y :: insertSorted x ys

/-- Model of Python `sorted` on strings (insertion sort). -/
def sortStrings : List String → List String
  | [] => []
  | x :: xs => insertSorted x (sortStrings xs)

/-- `sorted(p.name for p in lib_dir.glob("LLVM*.lib"))` (line 98); the glob
is modelled case-sensitively. -/
def globLLVMSorted (fs : FS) (dir : String) : List String :=
  sortStrings ((fs.listNames dir).filter
    (fun n => strStartsWith n "LLVM" && strEndsWith n ".lib"))

/-- The ordered basename list of `generate_llvm_libs_rsp` (lines 87-98):
entries of the existing response file when any survive parsing, otherwise
the alphabetical directory scan. -/
def libBasenames (fs : FS) (lib_dir : String) : List String :=
  let fromRsp : List String :=
    match fs.readFile LLVM_LIBS_RSP with
    | none => []
    | some txt => (pySplitlines txt).filterMap parseRspLine
  if fromRsp = [] then globLLVMSorted fs lib_dir else fromRsp

/-- `lib_dir` of `generate_llvm_libs_rsp`. -/
def libDirOf (root : String) : String := pjoin root "lib"

/-- The basenames that exist under `lib/` (the list-comprehension filter of
line 100). -/
def rspSurvivors (fs : FS) (root : String) : List String :=
  (libBasenames fs (libDirOf root)).filter
    (fun n => fs.pexists (pjoin (libDirOf root) n))

/-- The basenames that do NOT exist under `lib/` (line 101). -/
def rspMissing (fs : FS) (root : String) : List String :=
  (libBasenames fs (libDirOf root)).filter
    (fun n => !fs.pexists (pjoin (libDirOf root) n))

/-- The quoted absolute paths written out, one per line (line 100). -/
def rspLines (fs : FS) (root : String) : List String :=
  (rspSurvivors fs root).map (fun n => quoteStr (pjoin (libDirOf root) n))

/-- `"\n".join(lines) + "\n"`: the exact contents written (line 105). -/
def rspContent (fs : FS) (root : String) : String :=
  joinNL (rspLines fs root) ++ "\n"

/-- The warning of lines 102-103: emitted exactly when some basenames were
dropped, reporting their count and the first five. -/
def rspWarning (fs : FS) (root : String) : Option (Nat × List String) :=
  if rspMissing fs root = [] then none
  else some ((rspMissing fs root).length, (rspMissing fs root).take 5)

/-- `generate_llvm_libs_rsp(llvm_root)` (lines 80-106): raises
`FileNotFoundError` when `lib/` is absent, otherwise writes the response
file and succeeds (dropped entries only warn). -/
def generate_llvm_libs_rsp (fs : FS) (root : String) : Except PyError FS :=
  if fs.pexists (libDirOf root) then
    Except.ok (fs.writeFile LLVM_LIBS_RSP (rspContent fs root))
  else
    Except.error (.fileNotFound ("LLVM lib directory not found: " ++ libDirOf root))

/-- The regex `^set LLVM_DIR=.*$` with `re.MULTILINE`: a line matches
exactly when it starts with `set LLVM_DIR=`. -/
def setLinePat (part : String) : Bool := strStartsWith part "set LLVM_DIR="

/-- `pattern.sub(lambda m: new_line, content, count=1)` at the line level:
replace the first matching line, keep everything else. -/
def subFirst (nl : String) : List String → List String
  | [] => []
  | part :: rest =>
    if setLinePat part then nl :: rest else part :: subFirst nl rest

/-- The generated batch-script text: the template with the first
`set LLVM_DIR=` line replaced by the literal new line (the lambda in
`re.sub` prevents any escape reinterpretation of the path). -/
def batContent (root content : String) : String :=
  joinNL (subFirst ("set LLVM_DIR=" ++ root) (splitNL content))

/-- `generate_rebuild_auto_bat(llvm_root)` (lines 109-123): raises
`FileNotFoundError` when the template is missing, `ValueError` when no
line matches, otherwise writes `rebuild_auto.bat`. -/
def generate_rebuild_auto_bat (fs : FS) (root : String) : Except PyError FS :=
  match fs.readFile REBUILD_ALL_BAT with
  | none => Except.error (.fileNotFound ("Template not found: " ++ REBUILD_ALL_BAT))
  | some content =>
    if (splitNL content).any setLinePat then
      Except.ok (fs.writeFile REBUILD_AUTO_BAT (batContent root content))
    else
      Except.error (.valueError "Could not find the set LLVM_DIR= line in rebuild_all.bat")

/-- The two generation steps as run by `main`, keeping the world reached
when an exception escapes (Python does not roll back the first write). -/
def runGeneration (fs : FS) (root : String) : FS × Option PyError :=
  match generate_llvm_libs_rsp fs root with
  | Except.error e => (fs, some e)
  | Except.ok fs1 =>
    match generate_rebuild_auto_bat fs1 root with
    | Except.error e => (fs1, some e)
    | Except.ok fs2 => (fs2, none)

/-- `run_build()` (lines 126-133): `subprocess.call` on the generated
script; the child's exit code is returned unchanged. -/
def run_build (fs : FS) : Int := fs.buildExit

/-- The `--llvm` scan of `main` (lines 140-146) over the full `sys.argv`:
each `--llvm` followed by another argument overwrites the override. -/
def parseLlvmArg : List String → Option String → Option String
  | [], acc => acc
  | a :: rest, acc =>
    match rest with
    | [] => acc
    | v :: rest' => if a = "--llvm" then parseLlvmArg rest' (some v)
                    else parseLlvmArg (v :: rest') acc

/-- `main()` (lines 136-164), named `main'` as Lean reserves `main`.
`Except.error` models an uncaught exception from the generation steps;
otherwise the pair is the exit code and the final world. -/
def main' (fs : FS) (argv : List String) : Except PyError (Int × FS) :=
  let no_run := argv.contains "--no-run"
  let override := parseLlvmArg argv none
  match detect_llvm_path fs override with
  | none => Except.ok (1, fs)
  | some root0 =>
    let root := fs.resolve root0
    match generate_llvm_libs_rsp fs root with
    | Except.error e => Except.error e
    | Except.ok fs1 =>
      match generate_rebuild_auto_bat fs1 root with
      | Except.error e => Except.error e
      | Except.ok fs2 =>
        if no_run then Except.ok (0, fs2)
        else Except.ok (run_build fs2, fs2)

/-! ### Well-formedness predicates and concrete machine states -/

/-- A default machine state; concrete scenarios override single fields. -/
def emptyFS : FS where
  pexists := fun _ => false
  isDir := fun _ => false
  iterdir := fun _ => []
  listNames := fun _ => []
  readFile := fun _ => none
  resolve := fun s => s
  envGet := fun _ => none
  whereClangFirst := none
  buildExit := 0

/-- Well-formedness of a library basename: what every real Windows file
name satisfies (no newline, no separator) plus the `.lib` suffix that the
manifest parse guarantees. -/
def goodName (n : String) : Prop :=
  strEndsWith n ".lib" = true ∧ ∀ c ∈ n.data, c ≠ '\n' ∧ isSep c = false

/-- Well-formedness of a resolved installation root: nonempty, no newline,
and its first character is none of whitespace, quote, hash — true of any
absolute Windows path such as `C:\LLVM-dev`. -/
def goodRoot (root : String) : Prop :=
  root ≠ "" ∧ (∀ c ∈ root.data, c ≠ '\n') ∧
  ∀ c ∈ root.data.take 1, isSpace c = false ∧ c ≠ '"' ∧ c ≠ '#'

instance (n : String) : Decidable (goodName n) := by
  unfold goodName
  infer_instance

instance (root : String) : Decidable (goodRoot root) := by
  unfold goodRoot
  infer_instance

/-- An empty override string while `LLVM_PATH` holds a valid root. -/
def fsC1x : FS :=
  { emptyFS with
    resolve := fun s => if s = "" then "C:\\cwd" else s,
    envGet := fun k => if k = "LLVM_PATH" then some "C:\\valid" else none,
    pexists := fun p => p = "C:\\valid\\include\\llvm" }

/-- A nonempty override passing no marker while `LLVM_PATH` holds a valid
root. -/
def fsC1w : FS :=
  { emptyFS with
    envGet := fun k => if k = "LLVM_PATH" then some "C:\\valid" else none,
    pexists := fun p => p = "C:\\valid\\lib\\LLVMCore.lib" }

/-- The first existing well-known directory has only the include marker. -/
def fsC2x : FS :=
  { emptyFS with
    pexists := fun p => p = "C:\\LLVM-dev" || p = "C:\\LLVM-dev\\include\\llvm",
    isDir := fun p => p = "C:\\LLVM-dev" }

/-- The second well-known directory exists and has the library marker. -/
def fsC2w : FS :=
  { emptyFS with
    pexists := fun p =>
      p = "C:\\Program Files\\LLVM" || p = "C:\\Program Files\\LLVM\\lib\\LLVMCore.lib",
    isDir := fun p => p = "C:\\Program Files\\LLVM" }

/-- `LLVM_PATH` set but invalid, `LLVM_DIR` set and valid. -/
def fsC3x : FS :=
  { emptyFS with
    envGet := fun k =>
      if k = "LLVM_PATH" then some "C:\\X"
      else if k = "LLVM_DIR" then some "C:\\Y" else none,
    pexists := fun p => p = "C:\\Y\\include\\llvm" }

/-- A manifest naming one basename that is absent from `lib/`. -/
def fsC4w : FS :=
  { emptyFS with
    pexists := fun p => p = "C:\\L\\lib" || p = "C:\\L\\lib\\LLVMFoo.lib",
    readFile := fun p =>
      if p = LLVM_LIBS_RSP then some "LLVMFoo.lib\nLLVMBar.lib" else none }

/-- A manifest whose only entry is missing while `lib/` holds a real
library: the first generation writes an empty response file. -/
def fsC5x : FS :=
  { emptyFS with
    pexists := fun p => p = "C:\\L\\lib" || p = "C:\\L\\lib\\LLVMFoo.lib",
    listNames := fun p => if p = "C:\\L\\lib" then ["LLVMFoo.lib"] else [],
    readFile := fun p => if p = LLVM_LIBS_RSP then some "Bar.lib" else none }

/-- No manifest yet; `lib/` holds `LLVMCore.lib`. -/
def fsC5w : FS :=
  { emptyFS with
    pexists := fun p => p = "C:\\L\\lib" || p = "C:\\L\\lib\\LLVMCore.lib",
    listNames := fun p => if p = "C:\\L\\lib" then ["LLVMCore.lib"] else [] }

/-- A three-line template whose middle line sets `LLVM_DIR`. -/
def fsC6w : FS :=
  { emptyFS with
    readFile := fun p =>
      if p = REBUILD_ALL_BAT
      then some "@echo off\nset LLVM_DIR=C:\\old\ncall build" else none }

/-- A template with no `set LLVM_DIR=` line, next to a generable
manifest. -/
def fsC7w : FS :=
  { emptyFS with
    pexists := fun p => p = "C:\\L\\lib" || p = "C:\\L\\lib\\LLVMCore.lib",
    listNames := fun p => if p = "C:\\L\\lib" then ["LLVMCore.lib"] else [],
    readFile := fun p =>
      if p = REBUILD_ALL_BAT then some "@echo off\ncall build" else none }

/-- A complete successful run: override root, one-line template, one
library, child exit code 7. -/
def fsC8w : FS :=
  { emptyFS with
    pexists := fun p => p = "C:\\L\\lib" || p = "C:\\L\\lib\\LLVMCore.lib",
    listNames := fun p => if p = "C:\\L\\lib" then ["LLVMCore.lib"] else [],
    readFile := fun p =>
      if p = REBUILD_ALL_BAT then some "set LLVM_DIR=old" else none,
    buildExit := 7 }

/-- A root accepted through the include marker only; its `lib/` is
absent. -/
def fsC9w : FS :=
  { emptyFS with
    pexists := fun p => p = "C:\\R\\include\\llvm",
    envGet := fun k => if k = "LLVM_PATH" then some "C:\\R" else none }

/-- A manifest in which every line is excluded by the parse, next to a
`lib/` with two real libraries listed out of order. -/
def fsC10w : FS :=
  { emptyFS with
    pexists := fun p =>
      p = "C:\\L\\lib" || p = "C:\\L\\lib\\LLVMAlpha.lib" || p = "C:\\L\\lib\\LLVMZeta.lib",
    listNames := fun p =>
      if p = "C:\\L\\lib" then ["LLVMZeta.lib", "LLVMAlpha.lib"] else [],
    readFile := fun p =>
      if p = LLVM_LIBS_RSP then some "# comment\n\nnotalib.txt" else none }

/-! ### Basic list and string lemmas -/

theorem mk_inj (l : List Char) (s : String) (h : l = s.data) : String.mk l = s := by
  cases s with
  | mk d =>
    have h' : l = d := h
    rw [h']

theorem str_eq_empty_iff (s : String) : s = "" ↔ s.data = [] := by
  constructor
  · intro h; subst h; decide
  · intro h
    cases s with
    | mk d =>
      have h' : d = [] := h
      subst h'
      decide

theorem prefixOf_decomp : ∀ (a b : List Char), a.isPrefixOf b = true → ∃ t, b = a ++ t
  | [], b, _ => ⟨b, rfl⟩
  | _ :: _, [], h => by simp [List.isPrefixOf] at h
  | a :: as, b :: bs, h => by
    simp only [List.isPrefixOf, Bool.and_eq_true, beq_iff_eq] at h
    obtain ⟨t, ht⟩ := prefixOf_decomp as bs h.2
    exact ⟨t, by simp [h.1, ht]⟩

theorem takeWhile_all_append (p : Char → Bool) (c : Char) (hc : p c = false) :
    ∀ (l r : List Char), (∀ x ∈ l, p x = true) → (l ++ c :: r).takeWhile p = l
  | [], r, _ => by simp [List.takeWhile_cons, hc]
  | a :: l, r, h => by
    have ha : p a = true := h a (by simp)
    simp only [List.cons_append, List.takeWhile_cons, ha, if_true]
    rw [takeWhile_all_append p c hc l r (fun x hx => h x (by simp [hx]))]

theorem dropWhile_all_append (p : Char → Bool) (c : Char) (hc : p c = false) :
    ∀ (l r : List Char), (∀ x ∈ l, p x = true) → (l ++ c :: r).dropWhile p = c :: r
  | [], r, _ => by simp [List.dropWhile_cons, hc]
  | a :: l, r, h => by
    have ha : p a = true := h a (by simp)
    simp only [List.cons_append, List.dropWhile_cons, ha, if_true]
    exact dropWhile_all_append p c hc l r (fun x hx => h x (by simp [hx]))

theorem filterMap_eq_self_of_some (f : α → Option α) :
    ∀ (l : List α), (∀ x ∈ l, f x = some x) → l.filterMap f = l
  | [], _ => rfl
  | x :: l, h => by
    rw [List.filterMap_cons, h x (by simp),
      filterMap_eq_self_of_some f l (fun y hy => h y (by simp [hy]))]

/-! ### Lemmas about the newline splitter and joiner -/

theorem splitAux_no_newline : ∀ (l acc : List Char), (∀ c ∈ l, c ≠ '\n') →
    splitAux l acc = [String.mk (acc.reverse ++ l)]
  | [], acc, _ => by simp [splitAux]
  | c :: l, acc, h => by
    have hc : ¬(c = '\n') := h c (by simp)
    simp only [splitAux, if_neg hc]
    rw [splitAux_no_newline l (c :: acc) (fun x hx => h x (by simp [hx]))]
    simp

theorem splitAux_newline_chunk :
    ∀ (l acc rest : List Char), (∀ c ∈ l, c ≠ '\n') →
      splitAux (l ++ '\n' :: rest) acc = String.mk (acc.reverse ++ l) :: splitAux rest []
  | [], acc, rest, _ => by simp [splitAux]
  | c :: l, acc, rest, h => by
    have hc : ¬(c = '\n') := h c (by simp)
    have ih := splitAux_newline_chunk l (c :: acc) rest (fun x hx => h x (by simp [hx]))
    have harg : (c :: acc).reverse ++ l = acc.reverse ++ c :: l := by simp
    rw [harg] at ih
    show splitAux (c :: (l ++ '\n' :: rest)) acc
      = String.mk (acc.reverse ++ c :: l) :: splitAux rest []
    simp only [splitAux, if_neg hc]
    exact ih

theorem splitAux_ne_nil : ∀ (cs acc : List Char), splitAux cs acc ≠ []
  | [], acc => by simp [splitAux]
  | c :: cs, acc => by
    by_cases hc : c = '\n' <;> simp only [splitAux, hc, if_true, if_neg, reduceIte] <;>
      first
        | exact List.cons_ne_nil _ _
        | exact splitAux_ne_nil cs (c :: acc)

theorem splitAux_mem_no_newline :
    ∀ (cs acc : List Char) (part : String), part ∈ splitAux cs acc →
      (∀ c ∈ acc, c ≠ '\n') → ∀ c ∈ part.data, c ≠ '\n'
  | [], acc, part, hm, hacc => by
    simp only [splitAux, List.mem_singleton] at hm
    subst hm
    intro c hc
    exact hacc c (by simpa using hc)
  | a :: cs, acc, part, hm, hacc => by
    by_cases ha : a = '\n'
    · simp only [splitAux, ha, if_true, List.mem_cons, reduceIte] at hm
      rcases hm with hm | hm
      · subst hm; intro c hc; exact hacc c (by simpa using hc)
      · exact splitAux_mem_no_newline cs [] part hm (by simp)
    · simp only [splitAux, if_neg ha] at hm
      refine splitAux_mem_no_newline cs (a :: acc) part hm ?_
      intro c hc
      rcases List.mem_cons.mp hc with rfl | hc
      · exact ha
      · exact hacc c hc

theorem splitNL_no_newline (s : String) (part : String) (h : part ∈ splitNL s) :
    ∀ c ∈ part.data, c ≠ '\n' :=
  splitAux_mem_no_newline s.data [] part h (by simp)

theorem splitNL_joinNL : ∀ (parts : List String), parts ≠ [] →
    (∀ p ∈ parts, ∀ c ∈ p.data, c ≠ '\n') → splitNL (joinNL parts) = parts
  | [], h, _ => absurd rfl h
  | [l], _, hnl => by
    simp only [joinNL, splitNL]
    rw [splitAux_no_newline l.data [] (hnl l (by simp))]
    simp [mk_inj]
  | l :: l2 :: t, _, hnl => by
    show splitAux (l ++ "\n" ++ joinNL (l2 :: t)).data [] = l :: l2 :: t
    have hd : (l ++ "\n" ++ joinNL (l2 :: t)).data
        = l.data ++ '\n' :: (joinNL (l2 :: t)).data := by
      simp [String.data_append]
    rw [hd, splitAux_newline_chunk l.data [] (joinNL (l2 :: t)).data (hnl l (by simp))]
    have ih := splitNL_joinNL (l2 :: t) (by simp)
      (fun p hp => hnl p (by simp [hp]))
    simp only [List.reverse_nil, List.nil_append]
    rw [mk_inj l.data l rfl]
    exact congrArg (l :: ·) ih

theorem splitNL_join_newline : ∀ (parts : List String), parts ≠ [] →
    (∀ p ∈ parts, ∀ c ∈ p.data, c ≠ '\n') →
    splitNL (joinNL parts ++ "\n") = parts ++ [""]
  | [], h, _ => absurd rfl h
  | [l], _, hnl => by
    show splitAux (l ++ "\n").data [] = [l, ""]
    have hd : (l ++ "\n").data = l.data ++ '\n' :: [] := by simp [String.data_append]
    rw [hd, splitAux_newline_chunk l.data [] [] (hnl l (by simp))]
    simp only [List.reverse_nil, List.nil_append]
    rw [mk_inj l.data l rfl]
    rfl
  | l :: l2 :: t, _, hnl => by
    show splitAux (l ++ "\n" ++ joinNL (l2 :: t) ++ "\n").data [] = (l :: l2 :: t) ++ [""]
    have hd : (l ++ "\n" ++ joinNL (l2 :: t) ++ "\n").data
        = l.data ++ '\n' :: (joinNL (l2 :: t) ++ "\n").data := by
      simp [String.data_append]
    rw [hd, splitAux_newline_chunk l.data [] _ (hnl l (by simp))]
    have ih := splitNL_join_newline (l2 :: t) (by simp)
      (fun p hp => hnl p (by simp [hp]))
    simp only [List.reverse_nil, List.nil_append]
    rw [mk_inj l.data l rfl]
    exact congrArg (l :: ·) ih

theorem joinNL_concat_ne_empty (parts : List String) : joinNL parts ++ "\n" ≠ "" := by
  intro h
  rw [str_eq_empty_iff] at h
  simp [String.data_append] at h

theorem pySplitlines_join_newline (parts : List String) (h : parts ≠ [])
    (hnl : ∀ p ∈ parts, ∀ c ∈ p.data, c ≠ '\n') :
    pySplitlines (joinNL parts ++ "\n") = parts := by
  unfold pySplitlines
  rw [if_neg (joinNL_concat_ne_empty parts), splitNL_join_newline parts h hnl,
    List.getLast?_concat]
  simp

/-! ### Round-trip of a written response-file line through the parser -/

theorem quoteStr_data (s : String) : (quoteStr s).data = '"' :: (s.data ++ ['"']) := by
  have h1 : ("\"" : String).data = ['"'] := rfl
  simp [quoteStr, String.data_append, h1]

theorem pjoin_data (a b : String) : (pjoin a b).data = a.data ++ '\\' :: b.data := by
  have h1 : ("\\" : String).data = ['\\'] := rfl
  simp [pjoin, String.data_append, h1]

theorem pyStrip_quoted (p : Char → Bool) (hq : p '"' = false) (s : String) :
    pyStrip p (quoteStr s) = quoteStr s := by
  unfold pyStrip
  apply mk_inj
  rw [quoteStr_data]
  have h1 : ('"' :: (s.data ++ ['"'])).dropWhile p = '"' :: (s.data ++ ['"']) := by
    simp [List.dropWhile_cons, hq]
  rw [h1]
  have h2 : ('"' :: (s.data ++ ['"'])).reverse = '"' :: (s.data.reverse ++ ['"']) := by
    simp
  rw [h2]
  have h3 : ('"' :: (s.data.reverse ++ ['"'])).dropWhile p
      = '"' :: (s.data.reverse ++ ['"']) := by
    simp [List.dropWhile_cons, hq]
  rw [h3]
  simp

theorem pyStrip_unquote (s : String) (c0 cl : Char) (t t' : List Char)
    (hd : s.data = c0 :: t) (hr : s.data.reverse = cl :: t')
    (h0 : ¬(c0 = '"')) (hl : ¬(cl = '"')) :
    pyStrip (fun c => c = '"') (quoteStr s) = s := by
  unfold pyStrip
  apply mk_inj
  rw [quoteStr_data]
  have e0 : (fun c => decide (c = '"')) c0 = false := by simp [h0]
  have el : (fun c => decide (c = '"')) cl = false := by simp [hl]
  have h1 : ('"' :: (s.data ++ ['"'])).dropWhile (fun c => decide (c = '"'))
      = c0 :: (t ++ ['"']) := by
    have hsplit : ('"' :: (s.data ++ ['"'])) = ['"'] ++ c0 :: (t ++ ['"']) := by
      rw [hd]; simp
    rw [hsplit]
    exact dropWhile_all_append _ c0 e0 ['"'] (t ++ ['"']) (by simp)
  rw [h1]
  have ht : t.reverse ++ [c0] = cl :: t' := by
    rw [← hr, hd]; simp
  have h2 : (c0 :: (t ++ ['"'])).reverse = ['"'] ++ cl :: t' := by
    rw [← ht]; simp
  rw [h2, dropWhile_all_append _ cl el ['"'] t' (by simp)]
  rw [← hr]
  simp

theorem strStartsWith_head_false (s : String) (c0 : Char) (t : List Char) (a : Char)
    (hd : s.data = c0 :: t) (h0 : ¬(a = c0)) :
    strStartsWith s (String.mk [a]) = false := by
  unfold strStartsWith
  rw [hd]
  cases hb : (a == c0) with
  | false => simp [List.isPrefixOf, hb]
  | true => exact absurd (beq_iff_eq.mp hb) h0

theorem pathName_pjoin (libdir n : String) (cl : Char) (t' : List Char)
    (hnr : n.data.reverse = cl :: t') (hcl : isSep cl = false)
    (hsep : ∀ c ∈ n.data, isSep c = false) :
    pathName (pjoin libdir n) = n := by
  unfold pathName
  apply mk_inj
  have hrev : (pjoin libdir n).data.reverse
      = n.data.reverse ++ '\\' :: libdir.data.reverse := by
    rw [pjoin_data]; simp
  rw [hrev]
  have h1 : (n.data.reverse ++ '\\' :: libdir.data.reverse).dropWhile isSep
      = n.data.reverse ++ '\\' :: libdir.data.reverse := by
    rw [hnr, List.cons_append, List.dropWhile_cons, hcl]
    simp
  rw [h1]
  have h2 : (n.data.reverse ++ '\\' :: libdir.data.reverse).takeWhile
      (fun c => isSep c = false) = n.data.reverse := by
    apply takeWhile_all_append
    · decide
    · intro x hx
      simp [hsep x (List.mem_reverse.mp hx)]
  rw [h2]
  simp

theorem parseRspLine_quoted (libdir n : String) (c0 : Char) (t0 : List Char)
    (hld : libdir.data = c0 :: t0)
    (h0q : ¬(c0 = '"')) (h0h : ¬(c0 = '#'))
    (hn : goodName n) :
    parseRspLine (quoteStr (pjoin libdir n)) = some n := by
  obtain ⟨hend, hchars⟩ := hn
  have hsuf : (".lib" : String).data.reverse = ['b', 'i', 'l', '.'] := rfl
  obtain ⟨t2, ht2⟩ := prefixOf_decomp _ _ hend
  rw [hsuf] at ht2
  have hnr : n.data.reverse = 'b' :: (['i', 'l', '.'] ++ t2) := by rw [ht2]; rfl
  have hsd : (pjoin libdir n).data = c0 :: (t0 ++ '\\' :: n.data) := by
    rw [pjoin_data, hld]; rfl
  have hsr : (pjoin libdir n).data.reverse
      = 'b' :: ((['i', 'l', '.'] ++ t2) ++ '\\' :: libdir.data.reverse) := by
    rw [pjoin_data]
    simp only [List.reverse_append, List.reverse_cons]
    rw [hnr]
    simp
  have hstrip : stripLine (quoteStr (pjoin libdir n)) = pjoin libdir n := by
    unfold stripLine
    rw [pyStrip_quoted isSpace (by decide),
      pyStrip_unquote _ c0 'b' _ _ hsd hsr h0q (by decide)]
  unfold parseRspLine
  rw [hstrip]
  have hne : ¬(pjoin libdir n = "") := by
    rw [str_eq_empty_iff, hsd]
    simp
  rw [if_neg hne]
  have hhash : strStartsWith (pjoin libdir n) "#" = false :=
    strStartsWith_head_false (pjoin libdir n) c0 _ '#' hsd (fun h => h0h h.symm)
  rw [hhash]
  have hname : pathName (pjoin libdir n) = n := by
    apply pathName_pjoin libdir n 'b' _ hnr (by decide)
    intro c hc
    exact (hchars c hc).2
  simp only [Bool.false_eq_true, if_false]
  rw [hname, hend]
  simp

theorem quoted_pjoin_no_newline (libdir n : String)
    (hld : ∀ c ∈ libdir.data, c ≠ '\n') (hnc : ∀ c ∈ n.data, c ≠ '\n') :
    ∀ c ∈ (quoteStr (pjoin libdir n)).data, c ≠ '\n' := by
  intro c hc
  rw [quoteStr_data, pjoin_data] at hc
  rcases List.mem_cons.mp hc with rfl | hc
  · decide
  rcases List.mem_append.mp hc with hc | hc
  · rcases List.mem_append.mp hc with hc | hc
    · exact hld c hc
    rcases List.mem_cons.mp hc with rfl | hc
    · decide
    · exact hnc c hc
  · rcases List.mem_singleton.mp hc with rfl
    decide

theorem filterMap_parse_quoted (libdir : String) (c0 : Char) (t0 : List Char)
    (hld : libdir.data = c0 :: t0) (h0q : ¬(c0 = '"')) (h0h : ¬(c0 = '#')) :
    ∀ names : List String, (∀ n ∈ names, goodName n) →
      (names.map (fun n => quoteStr (pjoin libdir n))).filterMap parseRspLine = names := by
  intro names hnames
  rw [List.filterMap_map]
  apply filterMap_eq_self_of_some
  intro n hn
  exact parseRspLine_quoted libdir n c0 t0 hld h0q h0h (hnames n hn)

/-! ### Effects of a write on later probes -/

theorem writeFile_readFile_same (fs : FS) (p c : String) :
    (fs.writeFile p c).readFile p = some c := by
  simp [FS.writeFile]

theorem writeFile_readFile_other (fs : FS) (p c q : String) (h : ¬(q = p)) :
    (fs.writeFile p c).readFile q = fs.readFile q := by
  simp [FS.writeFile, h]

theorem writeFile_pexists_mono (fs : FS) (p c q : String) (h : fs.pexists q = true) :
    (fs.writeFile p c).pexists q = true := by
  unfold FS.writeFile
  by_cases hq : q = p <;> simp [hq, h]

theorem libDir_decomp (root : String) (hne : ¬(root = "")) :
    ∃ c0 t0, root.data = c0 :: t0 ∧
      (libDirOf root).data = c0 :: (t0 ++ '\\' :: ['l', 'i', 'b']) := by
  cases hd : root.data with
  | nil => exact absurd ((str_eq_empty_iff root).mpr hd) hne
  | cons c0 t0 =>
    refine ⟨c0, t0, rfl, ?_⟩
    unfold libDirOf
    rw [pjoin_data, hd]
    rfl

theorem libDir_no_newline (root : String) (h : ∀ c ∈ root.data, c ≠ '\n') :
    ∀ c ∈ (libDirOf root).data, c ≠ '\n' := by
  intro c hc
  unfold libDirOf at hc
  rw [pjoin_data] at hc
  rcases List.mem_append.mp hc with hc | hc
  · exact h c hc
  rcases List.mem_cons.mp hc with rfl | hc
  · decide
  · have hlib : ("lib" : String).data = ['l', 'i', 'b'] := rfl
    rw [hlib] at hc
    rcases List.mem_cons.mp hc with rfl | hc
    · decide
    rcases List.mem_cons.mp hc with rfl | hc
    · decide
    rcases List.mem_singleton.mp hc with rfl
    decide

/-! ### The second generation run parses back exactly what the first wrote -/

theorem libBasenames_after_write (fs : FS) (root : String)
    (hgood : goodRoot root)
    (hnames : ∀ n ∈ libBasenames fs (libDirOf root), goodName n)
    (hne : rspSurvivors fs root ≠ []) :
    libBasenames (fs.writeFile LLVM_LIBS_RSP (rspContent fs root)) (libDirOf root)
      = rspSurvivors fs root := by
  obtain ⟨hroot_ne, hroot_nl, hroot_head⟩ := hgood
  obtain ⟨c0, t0, hrd, hld⟩ := libDir_decomp root hroot_ne
  have hmem : c0 ∈ root.data.take 1 := by rw [hrd]; simp
  have hc0 := hroot_head c0 hmem
  have hsub : ∀ n ∈ rspSurvivors fs root, goodName n := by
    intro n hn
    exact hnames n (List.mem_filter.mp hn).1
  have hlines_nl : ∀ q ∈ rspLines fs root, ∀ c ∈ q.data, c ≠ '\n' := by
    intro q hq
    obtain ⟨n, hn, rfl⟩ := List.mem_map.mp hq
    apply quoted_pjoin_no_newline
    · exact libDir_no_newline root hroot_nl
    · intro c hc
      exact ((hsub n hn).2 c hc).1
  have hmap_ne : rspLines fs root ≠ [] := by
    unfold rspLines
    simp [hne]
  have hsplit : pySplitlines (rspContent fs root) = rspLines fs root := by
    unfold rspContent
    exact pySplitlines_join_newline _ hmap_ne hlines_nl
  have hparse : (rspLines fs root).filterMap parseRspLine = rspSurvivors fs root := by
    unfold rspLines
    exact filterMap_parse_quoted (libDirOf root) c0 _ hld
      (fun h => hc0.2.1 h) (fun h => hc0.2.2 h) _ hsub
  unfold libBasenames
  rw [writeFile_readFile_same]
  simp only []
  rw [hsplit, hparse, if_neg hne]

theorem rspSurvivors_after_write (fs : FS) (root : String)
    (hgood : goodRoot root)
    (hnames : ∀ n ∈ libBasenames fs (libDirOf root), goodName n)
    (hne : rspSurvivors fs root ≠ []) :
    rspSurvivors (fs.writeFile LLVM_LIBS_RSP (rspContent fs root)) root
      = rspSurvivors fs root := by
  show (libBasenames (fs.writeFile LLVM_LIBS_RSP (rspContent fs root)) (libDirOf root)).filter
      (fun n => (fs.writeFile LLVM_LIBS_RSP (rspContent fs root)).pexists
        (pjoin (libDirOf root) n))
    = rspSurvivors fs root
  rw [libBasenames_after_write fs root hgood hnames hne]
  apply List.filter_eq_self.mpr
  intro n hn
  exact writeFile_pexists_mono fs _ _ _ (List.mem_filter.mp hn).2

theorem rspContent_after_write (fs : FS) (root : String)
    (hgood : goodRoot root)
    (hnames : ∀ n ∈ libBasenames fs (libDirOf root), goodName n)
    (hne : rspSurvivors fs root ≠ []) :
    rspContent (fs.writeFile LLVM_LIBS_RSP (rspContent fs root)) root
      = rspContent fs root := by
  have hl : rspLines (fs.writeFile LLVM_LIBS_RSP (rspContent fs root)) root
      = rspLines fs root := by
    show (rspSurvivors (fs.writeFile LLVM_LIBS_RSP (rspContent fs root)) root).map
        (fun n => quoteStr (pjoin (libDirOf root) n))
      = rspLines fs root
    rw [rspSurvivors_after_write fs root hgood hnames hne]
    rfl
  show joinNL (rspLines (fs.writeFile LLVM_LIBS_RSP (rspContent fs root)) root) ++ "\n"
    = rspContent fs root
  rw [hl]
  rfl

/-! ### Claims C1-C3: the three detection strategies -/

/-- C1 (amended): for every NONEMPTY override path `o`, if neither marker
exists under `resolve(o)` then `detect_llvm_path` returns `none`, whatever
the environment variables, well-known directories or `clang` probe would
have yielded — a truthy override short-circuits all other strategies.
(The empty override string is falsy in Python and falls through, see the
counterexample.) -/
theorem detect_override_short_circuits (fs : FS) (o : String) (ho : ¬(o = ""))
    (h1 : hasMarkerLib fs (fs.resolve o) = false)
    (h2 : hasMarkerInc fs (fs.resolve o) = false) :
    detect_llvm_path fs (some o) = none := by
  show (if o = "" then detectRest fs else detectOverride fs o) = none
  rw [if_neg ho]
  unfold detectOverride
  simp [h1, h2]

/-- C1 counterexample: with the override `""` (reachable as `--llvm ""`),
neither marker exists under its resolution, yet `detect_llvm_path` falls
through to the environment strategy and returns the valid `LLVM_PATH`
root instead of `none`. -/
theorem detect_override_empty_falls_through :
    hasMarkerLib fsC1x (fsC1x.resolve "") = false ∧
    hasMarkerInc fsC1x (fsC1x.resolve "") = false ∧
    detect_llvm_path fsC1x (some "") = some "C:\\valid" := by
  decide

/-- C1 witness: a nonempty marker-less override yields `none` even though
`LLVM_PATH` holds a root carrying the library marker. -/
theorem detect_override_short_circuits_witness :
    detect_llvm_path fsC1w (some "C:\\nope") = none ∧
    detectEnvList fsC1w ENV_VARS = some "C:\\valid" :=
  ⟨detect_override_short_circuits fsC1w "C:\\nope" (by decide) (by decide) (by decide),
   by decide⟩

/-- C2 (amended): in the well-known-directory strategy only the first
EXISTING base of the list is examined (existence is the only skip
condition, and the loop breaks after that base regardless of the result,
so a later valid directory is never reached); the base is accepted exactly
when it is a directory and `lib/LLVMCore.lib` exists under it, and
otherwise the first immediate subdirectory that is a directory with
`lib/LLVMCore.lib` is accepted; the `include/llvm` marker is NOT consulted
by this strategy. -/
theorem detectCommon_first_existing (fs : FS) (pre : List String) (b : String)
    (post : List String)
    (hpre : ∀ x ∈ pre, fs.pexists x = false)
    (hb : fs.pexists b = true) :
    detectCommon fs (pre ++ b :: post) =
      (if fs.isDir b then
        if hasMarkerLib fs b then some b
        else firstSubWithMarker fs (fs.iterdir b)
      else none) := by
  induction pre with
  | nil =>
    show detectCommon fs (b :: post) = _
    unfold detectCommon
    rw [if_pos hb]
  | cons x pre ih =>
    have hx : fs.pexists x = false := hpre x (by simp)
    show detectCommon fs (x :: (pre ++ b :: post)) = _
    unfold detectCommon
    rw [hx]
    simp only [Bool.false_eq_true, if_false]
    exact ih (fun y hy => hpre y (by simp [hy]))

/-- C2 counterexample: the first existing base directory satisfies the
marker check through `include/llvm`, yet the strategy rejects it (and
everything else), because the code only tests `lib/LLVMCore.lib` here. -/
theorem detectCommon_ignores_include_marker :
    fsC2x.pexists "C:\\LLVM-dev" = true ∧
    fsC2x.isDir "C:\\LLVM-dev" = true ∧
    hasMarkerInc fsC2x "C:\\LLVM-dev" = true ∧
    hasMarkerLib fsC2x "C:\\LLVM-dev" = false ∧
    detectCommon fsC2x CANDIDATES = none := by
  decide

/-- C2 witness: with `C:\LLVM-dev` absent, the strategy examines
`C:\Program Files\LLVM`, which carries the library marker and is
accepted. -/
theorem detectCommon_first_existing_witness :
    detectCommon fsC2w CANDIDATES = some "C:\\Program Files\\LLVM" := by
  have h := detectCommon_first_existing fsC2w ["C:\\LLVM-dev"] "C:\\Program Files\\LLVM"
    ["C:\\llvm"] (by decide) (by decide)
  rw [show CANDIDATES = ["C:\\LLVM-dev"] ++ "C:\\Program Files\\LLVM" :: ["C:\\llvm"] from rfl]
  rw [h]
  decide

/-- C3 (amended): among the environment variables checked in their fixed
order, the outcome is determined by the first SET variable whose resolved
value passes the marker check; a variable that is set but fails the check
does not stop the loop — later variables are still consulted. -/
theorem detectEnvList_first_valid (fs : FS) (pre : List String) (k : String)
    (post : List String) (v : String)
    (hpre : ∀ x ∈ pre, ∀ w, envTruthy fs x = some w →
      hasMarkerLib fs (fs.resolve w) = false ∧ hasMarkerInc fs (fs.resolve w) = false)
    (hk : envTruthy fs k = some v)
    (hmark : hasMarkerLib fs (fs.resolve v) = true ∨
      hasMarkerInc fs (fs.resolve v) = true) :
    detectEnvList fs (pre ++ k :: post) = some (fs.resolve v) := by
  induction pre with
  | nil =>
    show detectEnvList fs (k :: post) = _
    unfold detectEnvList
    rw [hk]
    have hor : (hasMarkerLib fs (fs.resolve v) || hasMarkerInc fs (fs.resolve v)) = true := by
      rcases hmark with h | h <;> simp [h]
    simp [hor]
  | cons x pre ih =>
    show detectEnvList fs (x :: (pre ++ k :: post)) = _
    unfold detectEnvList
    cases hx : envTruthy fs x with
    | none => exact ih (fun y hy => hpre y (by simp [hy]))
    | some w =>
      have hw := hpre x (by simp) w hx
      simp only [hw.1, hw.2, Bool.or_self, Bool.false_eq_true, if_false]
      exact ih (fun y hy => hpre y (by simp [hy]))

/-- C3 counterexample: `LLVM_PATH` is set (first in the order) but passes
no marker; the loop nevertheless consults `LLVM_DIR` and returns its
root, so the first SET variable does not determine the outcome. -/
theorem detectEnvList_consults_later_vars :
    fsC3x.envGet "LLVM_PATH" = some "C:\\X" ∧
    hasMarkerLib fsC3x "C:\\X" = false ∧
    hasMarkerInc fsC3x "C:\\X" = false ∧
    detectEnvList fsC3x ENV_VARS = some "C:\\Y" := by
  decide

/-- C3 witness: the amended characterisation applied to the concrete
environment of the counterexample state. -/
theorem detectEnvList_first_valid_witness :
    detectEnvList fsC3x ENV_VARS = some "C:\\Y" := by
  have h := detectEnvList_first_valid fsC3x ["LLVM_PATH"] "LLVM_DIR" ["LLVM_HOME"] "C:\\Y"
    (by
      intro x hx w hw
      rcases List.mem_singleton.mp hx with rfl
      have hev : envTruthy fsC3x "LLVM_PATH" = some ("C:\\X") := rfl
      rw [hev] at hw
      injection hw with hw'
      subst hw'
      exact ⟨by decide, by decide⟩)
    rfl (Or.inr (by decide))
  rw [show ENV_VARS = ["LLVM_PATH"] ++ "LLVM_DIR" :: ["LLVM_HOME"] from rfl]
  exact h

/-! ### Claims C4-C5: manifest generation -/

/-- C4: whenever `lib/` exists, manifest generation succeeds (the step is
non-fatal regardless of dropped entries); every line written corresponds
to a basename of the input list whose file exists under `lib/`; and every
basename whose file does not exist is dropped from the survivors, appears
in the missing list, and triggers the warning — never silently included. -/
theorem generate_rsp_only_existing (fs : FS) (root : String)
    (hlib : fs.pexists (libDirOf root) = true) :
    generate_llvm_libs_rsp fs root
      = Except.ok (fs.writeFile LLVM_LIBS_RSP (rspContent fs root)) ∧
    (∀ q ∈ rspLines fs root, ∃ n, n ∈ libBasenames fs (libDirOf root) ∧
      fs.pexists (pjoin (libDirOf root) n) = true ∧
      q = quoteStr (pjoin (libDirOf root) n)) ∧
    (∀ n ∈ libBasenames fs (libDirOf root),
      fs.pexists (pjoin (libDirOf root) n) = false →
        n ∉ rspSurvivors fs root ∧ n ∈ rspMissing fs root ∧
        rspWarning fs root ≠ none) := by
  refine ⟨?_, ?_, ?_⟩
  · unfold generate_llvm_libs_rsp
    rw [if_pos hlib]
  · intro q hq
    obtain ⟨n, hn, rfl⟩ := List.mem_map.mp hq
    obtain ⟨hmem, hex⟩ := List.mem_filter.mp hn
    exact ⟨n, hmem, hex, rfl⟩
  · intro n hn hnex
    have hnotin : n ∉ rspSurvivors fs root := by
      intro hmem
      have hx := (List.mem_filter.mp hmem).2
      rw [hnex] at hx
      exact Bool.false_ne_true hx
    have hmiss : n ∈ rspMissing fs root := by
      apply List.mem_filter.mpr
      refine ⟨hn, ?_⟩
      rw [hnex]
      rfl
    have hml : rspMissing fs root ≠ [] := by
      intro hcontra
      rw [hcontra] at hmiss
      exact List.not_mem_nil n hmiss
    refine ⟨hnotin, hmiss, ?_⟩
    unfold rspWarning
    rw [if_neg hml]
    simp

/-- C4 witness: the manifest names `LLVMFoo.lib` (present) and
`LLVMBar.lib` (absent); generation succeeds, the absent basename is
dropped from the survivors, recorded as missing, and the warning fires. -/
theorem generate_rsp_only_existing_witness :
    generate_llvm_libs_rsp fsC4w "C:\\L"
      = Except.ok (fsC4w.writeFile LLVM_LIBS_RSP (rspContent fsC4w "C:\\L")) ∧
    "LLVMBar.lib" ∉ rspSurvivors fsC4w "C:\\L" ∧
    "LLVMBar.lib" ∈ rspMissing fsC4w "C:\\L" ∧
    rspWarning fsC4w "C:\\L" ≠ none := by
  have h := generate_rsp_only_existing fsC4w "C:\\L" (by decide)
  have h3 := h.2.2 "LLVMBar.lib" (by decide) (by decide)
  exact ⟨h.1, h3.1, h3.2.1, h3.2.2⟩

/-- C5 (amended): manifest generation is idempotent PROVIDED the first run
writes at least one library line.  For a well-formed root and well-formed
basenames: the first run writes `rspContent fs root`; a second run on the
resulting state parses that output back to exactly the surviving
basenames and writes byte-identical contents. -/
theorem generate_rsp_idempotent (fs : FS) (root : String)
    (hgood : goodRoot root)
    (hnames : ∀ n ∈ libBasenames fs (libDirOf root), goodName n)
    (hlib : fs.pexists (libDirOf root) = true)
    (hne : rspSurvivors fs root ≠ []) :
    generate_llvm_libs_rsp fs root
      = Except.ok (fs.writeFile LLVM_LIBS_RSP (rspContent fs root)) ∧
    rspContent (fs.writeFile LLVM_LIBS_RSP (rspContent fs root)) root
      = rspContent fs root ∧
    generate_llvm_libs_rsp (fs.writeFile LLVM_LIBS_RSP (rspContent fs root)) root
      = Except.ok ((fs.writeFile LLVM_LIBS_RSP (rspContent fs root)).writeFile
          LLVM_LIBS_RSP (rspContent fs root)) := by
  have hcontent := rspContent_after_write fs root hgood hnames hne
  refine ⟨?_, hcontent, ?_⟩
  · unfold generate_llvm_libs_rsp
    rw [if_pos hlib]
  · unfold generate_llvm_libs_rsp
    rw [if_pos (writeFile_pexists_mono fs _ _ _ hlib), hcontent]

/-- C5 counterexample: the manifest's only basename is absent from an
otherwise unchanged `lib/`, so the first run writes the empty response
file `"\n"`; the second run then finds no surviving entry, falls back to
the directory scan, and writes different bytes — idempotence fails. -/
theorem generate_rsp_not_idempotent :
    generate_llvm_libs_rsp fsC5x "C:\\L"
      = Except.ok (fsC5x.writeFile LLVM_LIBS_RSP "\n") ∧
    rspContent fsC5x "C:\\L" = "\n" ∧
    (fsC5x.writeFile LLVM_LIBS_RSP "\n").pexists "C:\\L\\lib\\LLVMFoo.lib" = true ∧
    (fsC5x.writeFile LLVM_LIBS_RSP "\n").listNames "C:\\L\\lib"
      = fsC5x.listNames "C:\\L\\lib" ∧
    rspContent (fsC5x.writeFile LLVM_LIBS_RSP "\n") "C:\\L"
      = "\"C:\\L\\lib\\LLVMFoo.lib\"\n" := by
  refine ⟨rfl, by decide, by decide, rfl, by decide⟩

/-- C5 witness: with a library present and no prior manifest, the first
run writes one line and the second run reproduces it byte for byte. -/
theorem generate_rsp_idempotent_witness :
    rspContent (fsC5w.writeFile LLVM_LIBS_RSP (rspContent fsC5w "C:\\L")) "C:\\L"
      = rspContent fsC5w "C:\\L" ∧
    generate_llvm_libs_rsp fsC5w "C:\\L"
      = Except.ok (fsC5w.writeFile LLVM_LIBS_RSP (rspContent fsC5w "C:\\L")) := by
  have h := generate_rsp_idempotent fsC5w "C:\\L" (by decide) (by decide)
    (by decide) (by decide)
  exact ⟨h.2.1, h.1⟩

/-! ### Claims C6-C7: batch-script generation -/

theorem subFirst_spec (nl : String) :
    ∀ (pre : List String) (m : String) (post : List String),
      (∀ x ∈ pre, setLinePat x = false) → setLinePat m = true →
      subFirst nl (pre ++ m :: post) = pre ++ nl :: post
  | [], m, post, _, hm => by
    show subFirst nl (m :: post) = nl :: post
    unfold subFirst
    simp [hm]
  | x :: pre, m, post, hpre, hm => by
    have hx : setLinePat x = false := hpre x (by simp)
    show subFirst nl (x :: (pre ++ m :: post)) = x :: (pre ++ nl :: post)
    unfold subFirst
    rw [hx]
    simp only [Bool.false_eq_true, if_false]
    rw [subFirst_spec nl pre m post (fun y hy => hpre y (by simp [hy])) hm]

theorem setline_no_newline (root : String) (hroot : ∀ c ∈ root.data, c ≠ '\n') :
    ∀ c ∈ ("set LLVM_DIR=" ++ root).data, c ≠ '\n' := by
  intro c hc
  rw [String.data_append] at hc
  rcases List.mem_append.mp hc with hc | hc
  · have hfix : ∀ x ∈ ("set LLVM_DIR=" : String).data, x ≠ '\n' := by decide
    exact hfix c hc
  · exact hroot c hc

/-- C6: for every template containing at least one line matching
`set LLVM_DIR=...` and a resolved root free of newlines, script generation
succeeds, replaces exactly the FIRST matching line with the literal text
`set LLVM_DIR=` followed by the root (no escape reinterpretation — the
replacement is string concatenation), preserves every other line verbatim,
and keeps the line count of the template. -/
theorem generate_bat_replaces_one_line (fs : FS) (root content : String)
    (pre : List String) (m : String) (post : List String)
    (hread : fs.readFile REBUILD_ALL_BAT = some content)
    (hsplit : splitNL content = pre ++ m :: post)
    (hpre : ∀ x ∈ pre, setLinePat x = false)
    (hm : setLinePat m = true)
    (hroot : ∀ c ∈ root.data, c ≠ '\n') :
    generate_rebuild_auto_bat fs root
      = Except.ok (fs.writeFile REBUILD_AUTO_BAT (batContent root content)) ∧
    batContent root content = joinNL (pre ++ ("set LLVM_DIR=" ++ root) :: post) ∧
    splitNL (batContent root content) = pre ++ ("set LLVM_DIR=" ++ root) :: post ∧
    (splitNL (batContent root content)).length = (splitNL content).length := by
  have hany : (splitNL content).any setLinePat = true := by
    rw [hsplit]
    exact List.any_eq_true.mpr ⟨m, by simp, hm⟩
  have hbat : batContent root content = joinNL (pre ++ ("set LLVM_DIR=" ++ root) :: post) := by
    unfold batContent
    rw [hsplit, subFirst_spec _ pre m post hpre hm]
  have hnlparts : ∀ p ∈ pre ++ ("set LLVM_DIR=" ++ root) :: post, ∀ c ∈ p.data, c ≠ '\n' := by
    intro p hp
    rcases List.mem_append.mp hp with hp | hp
    · exact splitNL_no_newline content p (by rw [hsplit]; exact List.mem_append_left _ hp)
    rcases List.mem_cons.mp hp with rfl | hp
    · exact setline_no_newline root hroot
    · exact splitNL_no_newline content p
        (by rw [hsplit]; exact List.mem_append_right _ (List.mem_cons_of_mem m hp))
  have hback : splitNL (batContent root content) = pre ++ ("set LLVM_DIR=" ++ root) :: post := by
    rw [hbat]
    exact splitNL_joinNL _ (by simp) hnlparts
  refine ⟨?_, hbat, hback, ?_⟩
  · unfold generate_rebuild_auto_bat
    rw [hread]
    simp [hany]
  · rw [hback, hsplit]
    simp

/-- C6 witness: a three-line template has its middle line replaced by
`set LLVM_DIR=C:\new`; the backslash of the path is not reinterpreted and
the other two lines survive verbatim. -/
theorem generate_bat_replaces_one_line_witness :
    generate_rebuild_auto_bat fsC6w "C:\\new"
      = Except.ok (fsC6w.writeFile REBUILD_AUTO_BAT
          (batContent "C:\\new" "@echo off\nset LLVM_DIR=C:\\old\ncall build")) ∧
    batContent "C:\\new" "@echo off\nset LLVM_DIR=C:\\old\ncall build"
      = "@echo off\nset LLVM_DIR=C:\\new\ncall build" := by
  have h := generate_bat_replaces_one_line fsC6w "C:\\new"
    "@echo off\nset LLVM_DIR=C:\\old\ncall build"
    ["@echo off"] "set LLVM_DIR=C:\\old" ["call build"]
    rfl (by decide) (by decide) (by decide) (by decide)
  refine ⟨h.1, ?_⟩
  rw [h.2.1]
  decide

/-- C7: if the manifest step already succeeded, then (a) a missing
template makes script generation fail with a filesystem error, and (b) a
template with no `set LLVM_DIR=` line makes it fail with a descriptive
configuration error; in that case nothing further is written — the
generated batch script is untouched and the already-written manifest
still holds the bytes the first step wrote. -/
theorem generate_bat_failure_modes (fs fs1 : FS) (root : String)
    (hok : generate_llvm_libs_rsp fs root = Except.ok fs1) :
    (fs.readFile REBUILD_ALL_BAT = none →
      runGeneration fs root
        = (fs1, some (PyError.fileNotFound
            ("Template not found: " ++ REBUILD_ALL_BAT)))) ∧
    (∀ content, fs.readFile REBUILD_ALL_BAT = some content →
      (splitNL content).any setLinePat = false →
      runGeneration fs root
        = (fs1, some (PyError.valueError
            "Could not find the set LLVM_DIR= line in rebuild_all.bat")) ∧
      fs1.readFile REBUILD_AUTO_BAT = fs.readFile REBUILD_AUTO_BAT ∧
      fs1.readFile LLVM_LIBS_RSP = some (rspContent fs root)) := by
  have hfs1 : fs.pexists (libDirOf root) = true ∧
      fs1 = fs.writeFile LLVM_LIBS_RSP (rspContent fs root) := by
    unfold generate_llvm_libs_rsp at hok
    by_cases hc : fs.pexists (libDirOf root) = true
    · rw [if_pos hc] at hok
      injection hok with h
      exact ⟨hc, h.symm⟩
    · rw [if_neg hc] at hok
      simp at hok
  have hread1 : fs1.readFile REBUILD_ALL_BAT = fs.readFile REBUILD_ALL_BAT := by
    rw [hfs1.2]
    exact writeFile_readFile_other fs _ _ _ (by decide)
  have hauto : fs1.readFile REBUILD_AUTO_BAT = fs.readFile REBUILD_AUTO_BAT := by
    rw [hfs1.2]
    exact writeFile_readFile_other fs _ _ _ (by decide)
  have hrsp : fs1.readFile LLVM_LIBS_RSP = some (rspContent fs root) := by
    rw [hfs1.2]
    exact writeFile_readFile_same fs _ _
  constructor
  · intro hnone
    have hgen : generate_rebuild_auto_bat fs1 root
        = Except.error (PyError.fileNotFound
            ("Template not found: " ++ REBUILD_ALL_BAT)) := by
      unfold generate_rebuild_auto_bat
      rw [hread1, hnone]
    unfold runGeneration
    rw [hok]
    show (match generate_rebuild_auto_bat fs1 root with
      | Except.error e => (fs1, some e)
      | Except.ok fs2 => (fs2, none)) = _
    rw [hgen]
  · intro content hsome hnomatch
    refine ⟨?_, hauto, hrsp⟩
    have hgen : generate_rebuild_auto_bat fs1 root
        = Except.error (PyError.valueError
            "Could not find the set LLVM_DIR= line in rebuild_all.bat") := by
      unfold generate_rebuild_auto_bat
      rw [hread1, hsome]
      simp [hnomatch]
    unfold runGeneration
    rw [hok]
    show (match generate_rebuild_auto_bat fs1 root with
      | Except.error e => (fs1, some e)
      | Except.ok fs2 => (fs2, none)) = _
    rw [hgen]

/-- C7 witness: a template with no matching line next to a generable
manifest; the run stops with the configuration error, the batch script
stays absent, and the manifest holds the bytes just written. -/
theorem generate_bat_failure_modes_witness :
    runGeneration fsC7w "C:\\L"
      = (fsC7w.writeFile LLVM_LIBS_RSP (rspContent fsC7w "C:\\L"),
         some (PyError.valueError
           "Could not find the set LLVM_DIR= line in rebuild_all.bat")) ∧
    (fsC7w.writeFile LLVM_LIBS_RSP (rspContent fsC7w "C:\\L")).readFile
        REBUILD_AUTO_BAT = none ∧
    (fsC7w.writeFile LLVM_LIBS_RSP (rspContent fsC7w "C:\\L")).readFile
        LLVM_LIBS_RSP = some (rspContent fsC7w "C:\\L") := by
  have h := (generate_bat_failure_modes fsC7w
      (fsC7w.writeFile LLVM_LIBS_RSP (rspContent fsC7w "C:\\L")) "C:\\L" rfl).2
      "@echo off\ncall build" rfl (by decide)
  refine ⟨h.1, ?_, h.2.2⟩
  rw [h.2.1]
  rfl

/-! ### Claims C8-C10: exit codes, resolution vs generation, parse rules -/

/-- C8: the exit code of `main` is 1 when no installation root resolves;
and when resolution and both generation steps succeed, it is 0 in
skip-run mode and otherwise exactly the child process's exit code,
propagated verbatim by `run_build`. -/
theorem main_exit_codes (fs : FS) (argv : List String) :
    (detect_llvm_path fs (parseLlvmArg argv none) = none →
      main' fs argv = Except.ok (1, fs)) ∧
    (∀ root fs1 fs2,
      detect_llvm_path fs (parseLlvmArg argv none) = some root →
      generate_llvm_libs_rsp fs (fs.resolve root) = Except.ok fs1 →
      generate_rebuild_auto_bat fs1 (fs.resolve root) = Except.ok fs2 →
      (argv.contains "--no-run" = true → main' fs argv = Except.ok (0, fs2)) ∧
      (argv.contains "--no-run" = false →
        main' fs argv = Except.ok (fs2.buildExit, fs2))) := by
  constructor
  · intro hdet
    simp only [main']
    rw [hdet]
  · intro root fs1 fs2 hdet h1 h2
    have hmain : main' fs argv =
        (if argv.contains "--no-run" = true then Except.ok (0, fs2)
         else Except.ok (run_build fs2, fs2)) := by
      simp only [main']
      rw [hdet]
      show (match generate_llvm_libs_rsp fs (fs.resolve root) with
        | Except.error e => Except.error e
        | Except.ok fs1 =>
          match generate_rebuild_auto_bat fs1 (fs.resolve root) with
          | Except.error e => Except.error e
          | Except.ok fs2 =>
            if argv.contains "--no-run" = true then Except.ok (0, fs2)
            else Except.ok (run_build fs2, fs2)) = _
      rw [h1]
      show (match generate_rebuild_auto_bat fs1 (fs.resolve root) with
        | Except.error e => Except.error e
        | Except.ok fs2 =>
          if argv.contains "--no-run" = true then Except.ok (0, fs2)
          else Except.ok (run_build fs2, fs2)) = _
      rw [h2]
    constructor <;> intro hnr <;> rw [hmain, hnr] <;> simp [run_build]

/-- C8 witness: a full successful run with the child exiting 7; `main`
returns 7 and the final world holds both generated files. -/
theorem main_exit_codes_witness :
    main' fsC8w ["build_auto.py", "--llvm", "C:\\L"]
      = Except.ok (7,
          (fsC8w.writeFile LLVM_LIBS_RSP (rspContent fsC8w "C:\\L")).writeFile
            REBUILD_AUTO_BAT (batContent "C:\\L" "set LLVM_DIR=old")) := by
  have h := (main_exit_codes fsC8w ["build_auto.py", "--llvm", "C:\\L"]).2 "C:\\L"
    (fsC8w.writeFile LLVM_LIBS_RSP (rspContent fsC8w "C:\\L"))
    ((fsC8w.writeFile LLVM_LIBS_RSP (rspContent fsC8w "C:\\L")).writeFile
      REBUILD_AUTO_BAT (batContent "C:\\L" "set LLVM_DIR=old"))
    rfl rfl rfl
  exact h.2 rfl

/-- C9: successful resolution does not guarantee that generation can
proceed: a root accepted solely because `include/llvm` exists — through
the override strategy or through `LLVM_PATH` — while `<root>/lib` is
absent, is returned by `detect_llvm_path`, and `generate_llvm_libs_rsp`
then raises `FileNotFoundError` on it. -/
theorem detect_include_only_root_fails_generation (fs : FS) :
    (∀ o, ¬(o = "") →
      hasMarkerLib fs (fs.resolve o) = false →
      hasMarkerInc fs (fs.resolve o) = true →
      fs.pexists (libDirOf (fs.resolve o)) = false →
      detect_llvm_path fs (some o) = some (fs.resolve o) ∧
      generate_llvm_libs_rsp fs (fs.resolve o)
        = Except.error (PyError.fileNotFound
            ("LLVM lib directory not found: " ++ libDirOf (fs.resolve o)))) ∧
    (∀ v, envTruthy fs "LLVM_PATH" = some v →
      hasMarkerLib fs (fs.resolve v) = false →
      hasMarkerInc fs (fs.resolve v) = true →
      fs.pexists (libDirOf (fs.resolve v)) = false →
      detect_llvm_path fs none = some (fs.resolve v) ∧
      generate_llvm_libs_rsp fs (fs.resolve v)
        = Except.error (PyError.fileNotFound
            ("LLVM lib directory not found: " ++ libDirOf (fs.resolve v)))) := by
  constructor
  · intro o ho hlib hinc hnolib
    constructor
    · show (if o = "" then detectRest fs else detectOverride fs o) = some (fs.resolve o)
      rw [if_neg ho]
      unfold detectOverride
      simp [hlib, hinc]
    · unfold generate_llvm_libs_rsp
      rw [if_neg (by simp [hnolib])]
  · intro v hv hlib hinc hnolib
    constructor
    · show detectRest fs = some (fs.resolve v)
      have henv : detectEnvList fs ENV_VARS = some (fs.resolve v) := by
        show detectEnvList fs ("LLVM_PATH" :: ["LLVM_DIR", "LLVM_HOME"]) = _
        unfold detectEnvList
        rw [hv]
        simp [hlib, hinc]
      unfold detectRest
      rw [henv]
    · unfold generate_llvm_libs_rsp
      rw [if_neg (by simp [hnolib])]

/-- C9 witness: `C:\R` carries only `include/llvm`; resolution (via the
override, with `LLVM_PATH` agreeing) returns it and manifest generation
fails with the missing-`lib/` filesystem error. -/
theorem detect_include_only_root_fails_generation_witness :
    detect_llvm_path fsC9w (some "C:\\R") = some "C:\\R" ∧
    generate_llvm_libs_rsp fsC9w "C:\\R"
      = Except.error (PyError.fileNotFound
          "LLVM lib directory not found: C:\\R\\lib") := by
  have h := (detect_include_only_root_fails_generation fsC9w).1 "C:\\R"
    (by decide) (by decide) (by decide) (by decide)
  exact ⟨h.1, h.2⟩

/-- C10: when reading a pre-existing manifest, a line is excluded exactly
when it is empty after stripping whitespace and quotes, or starts with
`#`, or its basename does not end in `.lib`; the exclusion is silent in
that the warning list only ever names entries of the basename list; and
when every line is excluded the basename list falls back to the
alphabetical `LLVM*.lib` scan of `<root>/lib`. -/
theorem rsp_parse_exclusions_and_fallback (fs : FS) (root txt : String)
    (hread : fs.readFile LLVM_LIBS_RSP = some txt) :
    (∀ line, parseRspLine line = none ↔
      (stripLine line = "" ∨ strStartsWith (stripLine line) "#" = true ∨
       strEndsWith (pathName (stripLine line)) ".lib" = false)) ∧
    ((∀ line ∈ pySplitlines txt, parseRspLine line = none) →
      libBasenames fs (libDirOf root) = globLLVMSorted fs (libDirOf root)) ∧
    (∀ n ∈ rspMissing fs root, n ∈ libBasenames fs (libDirOf root)) := by
  refine ⟨?_, ?_, ?_⟩
  · intro line
    unfold parseRspLine
    by_cases h1 : stripLine line = ""
    · simp [h1]
    by_cases h2 : strStartsWith (stripLine line) "#" = true
    · simp [h1, h2]
    by_cases h3 : strEndsWith (pathName (stripLine line)) ".lib" = true
    · simp [h1, h2, h3]
    · simp [h1, h2, h3]
  · intro hall
    have hnil : (pySplitlines txt).filterMap parseRspLine = [] :=
      List.filterMap_eq_nil_iff.mpr hall
    unfold libBasenames
    rw [hread]
    show (if (pySplitlines txt).filterMap parseRspLine = []
      then globLLVMSorted fs (libDirOf root)
      else (pySplitlines txt).filterMap parseRspLine) = _
    rw [if_pos hnil]
  · intro n hn
    exact (List.mem_filter.mp hn).1

/-- C10 witness: a manifest holding a comment, a blank line and a
non-`.lib` entry contributes nothing (silently), and the basename list
falls back to the alphabetically sorted `LLVM*.lib` scan. -/
theorem rsp_parse_exclusions_and_fallback_witness :
    parseRspLine "notalib.txt" = none ∧
    parseRspLine "# comment" = none ∧
    libBasenames fsC10w (libDirOf "C:\\L") = ["LLVMAlpha.lib", "LLVMZeta.lib"] := by
  have h := rsp_parse_exclusions_and_fallback fsC10w "C:\\L" "# comment\n\nnotalib.txt" rfl
  refine ⟨(h.1 "notalib.txt").mpr (by decide), (h.1 "# comment").mpr (by decide), ?_⟩
  rw [h.2.1 (by decide)]
  decide
